import Mathlib

/-!
Shallow embedding of the process-execution subsystem of the r-python interpreter:
the synchronous execution engine (`run_command` / `run_shell_command` from
`src/stdlib/subprocess/process.rs` and its duplicate `src/process.rs/process.rs`),
the two error taxonomies (`src/stdlib/subprocess/types.rs` and
`src/interpreter/subprocess_errors.rs`), and the builtin dispatch bridge
(`subprocess_run_builtin` from `src/interpreter/builtins.rs`).

The OS is modelled as an explicit oracle: each engine call performs exactly one
process-creation call (`Command::output()` in the source), whose outcome —
spawn failure, or raw output bytes plus an optional exit-status code — is
supplied by a function argument.  The interpreter's expression evaluator
(`expression_eval::eval`, not among the sources) is likewise abstracted as a
function argument of the bridge.
-/

/-- Kinds of native OS (`std::io`) errors, as far as the subsystem distinguishes
them: `ErrorKind::NotFound`, `ErrorKind::PermissionDenied`, and every remaining
kind collapsed into `other`, indexed by an abstract tag. -/
inductive IoErrorKind where
  | notFound
  | permissionDenied
  | other (tag : Nat)
deriving DecidableEq

/-- Model of `std::io::Error`: its kind together with the message that its
`Display` implementation prints. -/
structure IoError where
  kind : IoErrorKind
  msg : String
deriving DecidableEq

/-- `RunOptions` from `src/stdlib/subprocess/types.rs`. -/
structure RunOptions where
  shell : Bool
  capture_output : Bool
deriving DecidableEq

/-- The `Default` instance of `RunOptions`: `shell=false`, `capture_output=false`. -/
def RunOptions.default : RunOptions := ⟨false, false⟩

/-- `CompletedProcess` from `src/stdlib/subprocess/types.rs`; the `i32`
`returncode` is modelled as `Int`. -/
structure CompletedProcess where
  returncode : Int
  stdout : Option String
  stderr : Option String
deriving DecidableEq

/-- `SubprocessError` from `src/stdlib/subprocess/types.rs`. -/
inductive SubprocessError where
  | InvalidArguments (msg : String)
  | CommandNotFound (cmd : String)
  | PermissionDenied (cmd : String)
  | ExecutionFailed (msg : String)
  | OutputCaptureError (msg : String)
deriving DecidableEq

/-- The `Display` implementation of `SubprocessError` in
`src/stdlib/subprocess/types.rs` (also its `From<SubprocessError> for String`,
which calls `to_string()`). -/
def SubprocessError.toDisplayString : SubprocessError → String
  | .InvalidArguments msg => "Invalid arguments: " ++ msg
  | .CommandNotFound cmd => "Command not found: " ++ cmd
  | .PermissionDenied cmd => "Permission denied: " ++ cmd
  | .ExecutionFailed msg => "Execution failed: " ++ msg
  | .OutputCaptureError msg => "Output capture error: " ++ msg

/-- `SubprocessError::from_io_error` from `src/stdlib/subprocess/types.rs`;
`format!("{}: {}", command, error)` becomes string concatenation with the
error's display message. -/
def SubprocessError.from_io_error (error : IoError) (command : String) : SubprocessError :=
  match error.kind with
  | .notFound => .CommandNotFound command
  | .permissionDenied => .PermissionDenied command
  | .other _ => .ExecutionFailed (command ++ ": " ++ error.msg)

/-- Outcome the OS reports when `Command::output()` succeeds: the exit-status
code (`none` models termination by signal, where `ExitStatus::code()` is
`None`) and the raw stdout/stderr bytes. -/
structure OsOutput where
  statusCode : Option Int
  stdout : List Nat
  stderr : List Nat
deriving DecidableEq

/-- Alias for the OS error model, for use in scopes where a constructor named
`IoError` shadows it. -/
abbrev OsIoError := IoError

/-- Oracle for the single OS call an engine invocation makes: given the
program, its argument vector, and whether stdout/stderr were configured as
pipes, the OS either fails the spawn with an `IoError` or returns an
`OsOutput`. -/
def Os : Type := String → List String → Bool → Except IoError OsOutput

/-- Whether a byte is a UTF-8 continuation byte (`0x80..=0xBF`). -/
def isContByte (b : Nat) : Bool := 0x80 ≤ b && b ≤ 0xBF

/-- Valid range of the first continuation byte after a three-byte lead, per the
UTF-8 specification (excludes overlong forms after `0xE0` and surrogate code
points after `0xED`). -/
def cont3ok (b1 b2 : Nat) : Bool :=
  if b1 = 0xE0 then 0xA0 ≤ b2 && b2 ≤ 0xBF
  else if b1 = 0xED then 0x80 ≤ b2 && b2 ≤ 0x9F
  else isContByte b2

/-- Valid range of the first continuation byte after a four-byte lead, per the
UTF-8 specification (excludes overlong forms after `0xF0` and code points
beyond U+10FFFF after `0xF4`). -/
def cont4ok (b1 b2 : Nat) : Bool :=
  if b1 = 0xF0 then 0x90 ≤ b2 && b2 ≤ 0xBF
  else if b1 = 0xF4 then 0x80 ≤ b2 && b2 ≤ 0x8F
  else isContByte b2

/-- Strict UTF-8 decoding (model of `std::str::from_utf8`): `some` with the
decoded characters when the bytes are valid UTF-8, `none` otherwise. -/
def utf8_decode : List Nat → Option (List Char)
  | [] => some []
  | b1 :: t1 =>
    if b1 ≤ 0x7F then
      (utf8_decode t1).map (Char.ofNat b1 :: ·)
    else if 0xC2 ≤ b1 && b1 ≤ 0xDF then
      match t1 with
      | b2 :: t2 =>
        if isContByte b2 then
          (utf8_decode t2).map (Char.ofNat ((b1 - 0xC0) * 0x40 + (b2 - 0x80)) :: ·)
        else none
      | [] => none
    else if 0xE0 ≤ b1 && b1 ≤ 0xEF then
      match t1 with
      | b2 :: b3 :: t3 =>
        if cont3ok b1 b2 && isContByte b3 then
          (utf8_decode t3).map
            (Char.ofNat ((b1 - 0xE0) * 0x1000 + (b2 - 0x80) * 0x40 + (b3 - 0x80)) :: ·)
        else none
      | _ => none
    else if 0xF0 ≤ b1 && b1 ≤ 0xF4 then
      match t1 with
      | b2 :: b3 :: b4 :: t4 =>
        if cont4ok b1 b2 && isContByte b3 && isContByte b4 then
          (utf8_decode t4).map
            (Char.ofNat ((b1 - 0xF0) * 0x40000 + (b2 - 0x80) * 0x1000 +
              (b3 - 0x80) * 0x40 + (b4 - 0x80)) :: ·)
        else none
      | _ => none
    else none

/-- The Unicode replacement character U+FFFD. -/
def replacementChar : Char := Char.ofNat 0xFFFD

/-- Lossy UTF-8 decoding (model of `String::from_utf8_lossy`): each maximal
invalid subpart is replaced by U+FFFD and decoding resumes at the byte that
broke the sequence. -/
def utf8_lossy : List Nat → List Char
  | [] => []
  | b1 :: t1 =>
    if b1 ≤ 0x7F then Char.ofNat b1 :: utf8_lossy t1
    else if 0xC2 ≤ b1 && b1 ≤ 0xDF then
      match e1 : t1 with
      | b2 :: t2 =>
        if isContByte b2 then
          Char.ofNat ((b1 - 0xC0) * 0x40 + (b2 - 0x80)) :: utf8_lossy t2
        else replacementChar :: utf8_lossy t1
      | [] => [replacementChar]
    else if 0xE0 ≤ b1 && b1 ≤ 0xEF then
      match e1 : t1 with
      | b2 :: t2 =>
        if cont3ok b1 b2 then
          match e2 : t2 with
          | b3 :: t3 =>
            if isContByte b3 then
              Char.ofNat ((b1 - 0xE0) * 0x1000 + (b2 - 0x80) * 0x40 + (b3 - 0x80)) ::
                utf8_lossy t3
            else replacementChar :: utf8_lossy t2
          | [] => [replacementChar]
        else replacementChar :: utf8_lossy t1
      | [] => [replacementChar]
    else if 0xF0 ≤ b1 && b1 ≤ 0xF4 then
      match e1 : t1 with
      | b2 :: t2 =>
        if cont4ok b1 b2 then
          match e2 : t2 with
          | b3 :: t3 =>
            if isContByte b3 then
              match e3 : t3 with
              | b4 :: t4 =>
                if isContByte b4 then
                  Char.ofNat ((b1 - 0xF0) * 0x40000 + (b2 - 0x80) * 0x1000 +
                    (b3 - 0x80) * 0x40 + (b4 - 0x80)) :: utf8_lossy t4
                else replacementChar :: utf8_lossy t3
              | [] => [replacementChar]
            else replacementChar :: utf8_lossy t2
          | [] => [replacementChar]
        else replacementChar :: utf8_lossy t1
      | [] => [replacementChar]
    else replacementChar :: utf8_lossy t1
termination_by l => l.length
decreasing_by all_goals (subst_vars; simp only [List.length_cons]; omega)

/-- Model of `str::trim` (Rust): removes leading and trailing whitespace
characters.  Stated structurally on the character list so that it computes by
kernel reduction. -/
def rustTrim (s : String) : String :=
  String.mk (((s.data.dropWhile Char.isWhitespace).reverse.dropWhile Char.isWhitespace).reverse)

/-- `bytes_to_string` from `src/stdlib/subprocess/process.rs`: empty input gives
the empty string, valid UTF-8 is decoded strictly, anything else is decoded
lossily. -/
def bytes_to_string (bytes : List Nat) : String :=
  if bytes.isEmpty then ""
  else
    match utf8_decode bytes with
    | some s => String.mk s
    | none => String.mk (utf8_lossy bytes)

/-- `run_command` from `src/stdlib/subprocess/process.rs`: direct execution
without shell interpretation.  The single `cmd.output()` call is the `os`
oracle applied to the program (`command[0]`), the remaining arguments, and the
capture configuration. -/
def run_command (command : List String) (options : RunOptions) (os : Os) :
    Except SubprocessError CompletedProcess :=
  if command.isEmpty then
    .error (.InvalidArguments "Command cannot be empty")
  else
    -- command is non-empty here, so headD's default is never used
    let program := command.headD ""
    let args := command.tail
    match os program args options.capture_output with
    | .ok output =>
      let stdout := if options.capture_output then some (bytes_to_string output.stdout) else none
      let stderr := if options.capture_output then some (bytes_to_string output.stderr) else none
      let returncode := output.statusCode.getD (-1)
      .ok ⟨returncode, stdout, stderr⟩
    | .error e => .error (SubprocessError.from_io_error e program)

/-- `run_shell_command` from `src/stdlib/subprocess/process.rs`: execution
through the system shell.  The `cfg!(target_os = "windows")` compile-time test
is the `windows` parameter. -/
def run_shell_command (windows : Bool) (command : String) (options : RunOptions) (os : Os) :
    Except SubprocessError CompletedProcess :=
  if (rustTrim command).isEmpty then
    .error (.InvalidArguments "Shell command cannot be empty")
  else
    let shell_program := if windows then "cmd" else "sh"
    let shell_arg := if windows then "/C" else "-c"
    match os shell_program [shell_arg, command] options.capture_output with
    | .ok output =>
      let stdout := if options.capture_output then some (bytes_to_string output.stdout) else none
      let stderr := if options.capture_output then some (bytes_to_string output.stderr) else none
      let returncode := output.statusCode.getD (-1)
      .ok ⟨returncode, stdout, stderr⟩
    | .error e => .error (SubprocessError.from_io_error e shell_program)

namespace ProcessRsCopy

/-- `bytes_to_string` from the duplicated engine copy `src/process.rs/process.rs`
(its text is identical to the copy in `src/stdlib/subprocess/process.rs`); both
call the same standard-library UTF-8 routines. -/
def bytes_to_string (bytes : List Nat) : String :=
  if bytes.isEmpty then ""
  else
    match utf8_decode bytes with
    | some s => String.mk s
    | none => String.mk (utf8_lossy bytes)

/-- `run_command` from the duplicated engine copy `src/process.rs/process.rs`. -/
def run_command (command : List String) (options : RunOptions) (os : Os) :
    Except SubprocessError CompletedProcess :=
  if command.isEmpty then
    .error (.InvalidArguments "Command cannot be empty")
  else
    -- command is non-empty here, so headD's default is never used
    let program := command.headD ""
    let args := command.tail
    match os program args options.capture_output with
    | .ok output =>
      let stdout := if options.capture_output then some (bytes_to_string output.stdout) else none
      let stderr := if options.capture_output then some (bytes_to_string output.stderr) else none
      let returncode := output.statusCode.getD (-1)
      .ok ⟨returncode, stdout, stderr⟩
    | .error e => .error (SubprocessError.from_io_error e program)

/-- `run_shell_command` from the duplicated engine copy `src/process.rs/process.rs`. -/
def run_shell_command (windows : Bool) (command : String) (options : RunOptions) (os : Os) :
    Except SubprocessError CompletedProcess :=
  if (rustTrim command).isEmpty then
    .error (.InvalidArguments "Shell command cannot be empty")
  else
    let shell_program := if windows then "cmd" else "sh"
    let shell_arg := if windows then "/C" else "-c"
    match os shell_program [shell_arg, command] options.capture_output with
    | .ok output =>
      let stdout := if options.capture_output then some (bytes_to_string output.stdout) else none
      let stderr := if options.capture_output then some (bytes_to_string output.stderr) else none
      let returncode := output.statusCode.getD (-1)
      .ok ⟨returncode, stdout, stderr⟩
    | .error e => .error (SubprocessError.from_io_error e shell_program)

end ProcessRsCopy

/-- Rendering of one character under Rust's debug formatting of strings
(`{:?}`), covering the escapes that can arise in this subsystem's messages;
other characters print as themselves. -/
def rustEscapeChar (c : Char) : String :=
  if c = '"' then "\\\""
  else if c = '\\' then "\\\\"
  else if c = '\n' then "\\n"
  else if c = '\t' then "\\t"
  else if c = '\r' then "\\r"
  else String.mk [c]

/-- Rust's `{:?}` formatting of a `String`: quoted and escaped. -/
def rustDebugString (s : String) : String :=
  "\"" ++ String.join (s.data.map rustEscapeChar) ++ "\""

/-- Rust's `{:?}` formatting of an `Option<i32>`. -/
def rustDebugOptionInt : Option Int → String
  | none => "None"
  | some n => "Some(" ++ toString n ++ ")"

/-- Rust's `{:?}` formatting of an `Option<String>`. -/
def rustDebugOptionString : Option String → String
  | none => "None"
  | some s => "Some(" ++ rustDebugString s ++ ")"

namespace Errs

/-- `SubprocessError` from `src/interpreter/subprocess_errors.rs` — the
interpreter module's drifted copy of the taxonomy, with a struct-shaped
`ExecutionFailed` and the extra `IoError` and `Other` variants. -/
inductive SubprocessError where
  | CommandNotFound (cmd_info : String)
  | ExecutionFailed (command_name : String) (exit_code : Option Int)
      (stdout : Option String) (stderr : Option String)
  | IoError (msg : String)
  | InvalidArguments (msg : String)
  | PermissionDenied (msg : String)
  | OutputCaptureError (msg : String)
  | Other (msg : String)
deriving DecidableEq

/-- The `From<SubprocessError> for String` implementation of
`src/interpreter/subprocess_errors.rs`; `{:?}` interpolations become the Rust
debug renderings. -/
def SubprocessError.toDisplayString : SubprocessError → String
  | .CommandNotFound cmd_info => "Command not found: " ++ cmd_info
  | .ExecutionFailed command_name exit_code stdout stderr =>
    "Command \u0027" ++ command_name ++ "\u0027 failed with exit code " ++
      rustDebugOptionInt exit_code ++ ". Stdout: " ++ rustDebugOptionString stdout ++
      ", Stderr: " ++ rustDebugOptionString stderr
  | .IoError msg => "I/O Error: " ++ msg
  | .InvalidArguments msg => "Invalid arguments: " ++ msg
  | .PermissionDenied msg => "Permission denied: " ++ msg
  | .OutputCaptureError msg => "Output capture error: " ++ msg
  | .Other msg => "Subprocess Error: " ++ msg

/-- `SubprocessError::from_io_error` from `src/interpreter/subprocess_errors.rs`. -/
def SubprocessError.from_io_error (err : OsIoError) (command_name : String) : SubprocessError :=
  match err.kind with
  | .notFound => .CommandNotFound command_name
  | .permissionDenied => .PermissionDenied command_name
  | .other _ => .IoError (command_name ++ ": " ++ err.msg)

/-- Constructor index of a variant, used to express that a property depends
only on which variant a value is. -/
def SubprocessError.tag : SubprocessError → Nat
  | .CommandNotFound _ => 0
  | .ExecutionFailed _ _ _ _ => 1
  | .IoError _ => 2
  | .InvalidArguments _ => 3
  | .PermissionDenied _ => 4
  | .OutputCaptureError _ => 5
  | .Other _ => 6

end Errs

/-- Constructor index of a variant of the stdlib `SubprocessError`, used to
express that a property depends only on which variant a value is. -/
def SubprocessError.tag : SubprocessError → Nat
  | .InvalidArguments _ => 0
  | .CommandNotFound _ => 1
  | .PermissionDenied _ => 2
  | .ExecutionFailed _ => 3
  | .OutputCaptureError _ => 4

/-- The category half of a display string, per variant, for the stdlib
`SubprocessError` (the text before the `": "` separator in the `Display`
implementation). -/
def SubprocessError.category : SubprocessError → String
  | .InvalidArguments _ => "Invalid arguments"
  | .CommandNotFound _ => "Command not found"
  | .PermissionDenied _ => "Permission denied"
  | .ExecutionFailed _ => "Execution failed"
  | .OutputCaptureError _ => "Output capture error"

/-- The detail half of a display string: the field carried by the variant, for
the stdlib `SubprocessError`. -/
def SubprocessError.detail : SubprocessError → String
  | .InvalidArguments msg => msg
  | .CommandNotFound cmd => cmd
  | .PermissionDenied cmd => cmd
  | .ExecutionFailed msg => msg
  | .OutputCaptureError msg => msg

/-- Substring occurrence on the underlying character lists: `needle` occurs
contiguously inside `hay`. -/
def strContains (needle hay : String) : Prop :=
  ∃ pre post, hay.data = pre ++ needle.data ++ post

/-- Modelled from the spec: the interpreter's value representation
(`Expression` from `src/ir/ast.rs`, which is not among the sources),
restricted to the constructors `subprocess_run_builtin` consumes and
produces. -/
inductive Expression where
  | CString (s : String)
  | CInt (n : Int)
  | CTrue
  | CFalse
  | ListValue (items : List Expression)
  | CompletedProcess (returncode : Int) (stdout : Option String) (stderr : Option String)
  | CErr (inner : Expression)

/-- Modelled from the spec: `ExpressionResult` from
`src/interpreter/expression_eval.rs` (not among the sources) — an ordinary
value, or a propagating non-local outcome the bridge must forward unchanged. -/
inductive ExpressionResult where
  | Value (e : Expression)
  | Propagate (e : Expression)

/-- Abstract evaluator: models `expression_eval::eval(arg, env)` with the
environment baked in; the bridge treats it as a black box. -/
def EvalFn : Type := Expression → Except String ExpressionResult

/-- The argument-evaluation loop of `subprocess_run_builtin`: arguments are
evaluated left to right; an evaluator error aborts the builtin (the `?`
operator), a `Propagate` outcome short-circuits and is returned (`inr`), and
otherwise the list of evaluated values results (`inl`). -/
def eval_args (evalFn : EvalFn) : List Expression → Except String (List Expression ⊕ Expression)
  | [] => .ok (.inl [])
  | arg :: rest =>
    match evalFn arg with
    | .error m => .error m
    | .ok (.Propagate p) => .ok (.inr p)
    | .ok (.Value v) =>
      match eval_args evalFn rest with
      | .error m => .error m
      | .ok (.inr p) => .ok (.inr p)
      | .ok (.inl vs) => .ok (.inl (v :: vs))

/-- The command-list extraction loop inside `subprocess_run_builtin`: every
item of the list must be a `CString`. -/
def extract_strings : List Expression → Except String (List String)
  | [] => .ok []
  | .CString s :: rest => (extract_strings rest).map (s :: ·)
  | _ :: _ => .error "subprocess.run() command list must contain only strings"

/-- Parsing of the first (command) argument of `subprocess_run_builtin`: a list
of strings is taken as an argv vector (must be non-empty), a single string
becomes a one-element vector, anything else is a contract violation. -/
def parse_command : Expression → Except String (List String)
  | .ListValue list =>
    match extract_strings list with
    | .error m => .error m
    | .ok cmd_vec =>
      if cmd_vec.isEmpty then .error "subprocess.run() command list cannot be empty"
      else .ok cmd_vec
  | .CString s => .ok [s]
  | _ => .error "subprocess.run() first argument must be a list of strings or a string"

/-- Parsing of an optional boolean flag argument of `subprocess_run_builtin`. -/
def parse_bool_flag (v : Expression) (errMsg : String) : Except String Bool :=
  match v with
  | .CTrue => .ok true
  | .CFalse => .ok false
  | _ => .error errMsg

/-- Parsing of the evaluated argument list into the engine inputs (command
vector and `RunOptions`), mirroring lines 92–133 of
`src/interpreter/builtins.rs`; the empty case is unreachable because arity was
already validated. -/
def parse_run_args (vals : List Expression) : Except String (List String × RunOptions) :=
  match vals with
  | [] => .error "subprocess.run() takes 1 to 3 arguments"
  | v0 :: rest =>
    match parse_command v0 with
    | .error m => .error m
    | .ok command =>
      match rest with
      | [] => .ok (command, RunOptions.default)
      | [v1] =>
        match parse_bool_flag v1 "subprocess.run() shell argument must be a boolean" with
        | .error m => .error m
        | .ok sh => .ok (command, ⟨sh, false⟩)
      | v1 :: v2 :: _ =>
        match parse_bool_flag v1 "subprocess.run() shell argument must be a boolean" with
        | .error m => .error m
        | .ok sh =>
          match parse_bool_flag v2 "subprocess.run() capture_output argument must be a boolean" with
          | .error m => .error m
          | .ok cap => .ok (command, ⟨sh, cap⟩)

/-- The dispatch between the two engine entry points (lines 136–145 of
`src/interpreter/builtins.rs`): shell mode with a one-element command uses the
shell; non-shell mode executes directly; shell mode with a longer list falls
back to shell-executing only the first element. -/
def dispatch_execute (windows : Bool) (command : List String) (options : RunOptions) (os : Os) :
    Except SubprocessError CompletedProcess :=
  if options.shell && command.length == 1 then
    -- command is non-empty here, so headD's default is never used
    run_shell_command windows (command.headD "") options os
  else if !options.shell then
    run_command command options os
  else
    run_shell_command windows (command.headD "") options os

/-- Conversion of the engine result into an interpreter value (lines 147–164 of
`src/interpreter/builtins.rs`): success wraps a `CompletedProcess` expression;
a `SubprocessError` becomes its display string wrapped in `CErr` — an ordinary
value in the `Ok` channel, never a call failure. -/
def wrapResult : Except SubprocessError CompletedProcess → Except String ExpressionResult
  | .ok cp => .ok (.Value (.CompletedProcess cp.returncode cp.stdout cp.stderr))
  | .error e => .ok (.Value (.CErr (.CString e.toDisplayString)))

/-- `subprocess_run_builtin` from `src/interpreter/builtins.rs`: arity check,
argument evaluation, command/flag parsing, engine dispatch, result wrapping. -/
def subprocess_run_builtin (windows : Bool) (args : List Expression) (evalFn : EvalFn)
    (os : Os) : Except String ExpressionResult :=
  if args.isEmpty || args.length > 3 then
    .error "subprocess.run() takes 1 to 3 arguments"
  else
    match eval_args evalFn args with
    | .error m => .error m
    | .ok (.inr p) => .ok (.Propagate p)
    | .ok (.inl evaluated_args) =>
      match parse_run_args evaluated_args with
      | .error m => .error m
      | .ok (command, options) => wrapResult (dispatch_execute windows command options os)

/-- An expression encoding of a boolean, as the bridge expects its flag
arguments. -/
def boolExpr (b : Bool) : Expression := if b then .CTrue else .CFalse

/-- The display-format property claimed for the error taxonomies, stated for an
arbitrary variant-indexed category function: every variant's display string is
a category determined solely by the variant, then `": "`, then a detail; and
the conversion sends `CommandNotFound("foo")` exactly to
`"Command not found: foo"`. -/
def ClaimC8Statement : Prop :=
  (∃ catFn : Nat → String, ∀ e : SubprocessError,
    ∃ d, e.toDisplayString = catFn e.tag ++ ": " ++ d) ∧
  (∃ catFn : Nat → String, ∀ e : Errs.SubprocessError,
    ∃ d, e.toDisplayString = catFn e.tag ++ ": " ++ d) ∧
  SubprocessError.toDisplayString (.CommandNotFound "foo") = "Command not found: foo" ∧
  Errs.SubprocessError.toDisplayString (.CommandNotFound "foo") = "Command not found: foo"

/-- C9: the two duplicated copies of the execution engine — `run_command` and
`run_shell_command` as defined in `src/process.rs/process.rs` and in
`src/stdlib/subprocess/process.rs` — are behaviorally equivalent: they return
equal results for every command, option set, and OS outcome, including the
same error variant for the same spawn failure. -/
theorem claim_C9_duplicate_engines_equal (windows : Bool) (cmd : List String)
    (s : String) (opts : RunOptions) (os : Os) :
    ProcessRsCopy.run_command cmd opts os = run_command cmd opts os ∧
    ProcessRsCopy.run_shell_command windows s opts os = run_shell_command windows s opts os :=
  ⟨rfl, rfl⟩

/-- C4: on an empty command vector `run_command` returns an `InvalidArguments`
error whose message contains "empty", and on a command string that trims to
empty `run_shell_command` does likewise; in both cases the result is
independent of the OS oracle, so no OS call is made. -/
theorem claim_C4_empty_command (windows : Bool) (opts : RunOptions) (os os' : Os)
    (s : String) :
    (run_command [] opts os = .error (.InvalidArguments "Command cannot be empty") ∧
      strContains "empty" "Command cannot be empty" ∧
      run_command [] opts os = run_command [] opts os') ∧
    ((rustTrim s).isEmpty = true →
      run_shell_command windows s opts os =
        .error (.InvalidArguments "Shell command cannot be empty") ∧
      strContains "empty" "Shell command cannot be empty" ∧
      run_shell_command windows s opts os = run_shell_command windows s opts os') := by
  refine ⟨⟨rfl, ⟨"Command cannot be ".data, [], by decide⟩, rfl⟩,
    fun h => ⟨?_, ⟨"Shell command cannot be ".data, [], by decide⟩, ?_⟩⟩
  · simp [run_shell_command, h]
  · simp [run_shell_command, h]

/-- Closed application of `claim_C4_empty_command` at a whitespace-only shell
command and a concrete OS oracle. -/
theorem claim_C4_witness :
    (rustTrim "   ").isEmpty = true ∧
    run_shell_command false "   " ⟨false, false⟩ (fun _ _ _ => .ok ⟨some 0, [], []⟩) =
      .error (.InvalidArguments "Shell command cannot be empty") :=
  ⟨by decide, ((claim_C4_empty_command false ⟨false, false⟩
      (fun _ _ _ => .ok ⟨some 0, [], []⟩) (fun _ _ _ => .ok ⟨some 0, [], []⟩) "   ").2
      (by decide)).1⟩

/-- C5: both `from_io_error` implementations classify a native OS error
deterministically by its kind — not-found gives `CommandNotFound` carrying the
command, permission-denied gives `PermissionDenied` carrying the command, and
every other kind gives the copy's generic variant (`ExecutionFailed` in the
stdlib copy, `IoError` in the interpreter copy) whose message embeds both the
command and the native error's message. -/
theorem claim_C5_io_error_classification (e : IoError) (c : String) :
    (e.kind = .notFound →
      SubprocessError.from_io_error e c = .CommandNotFound c ∧
      Errs.SubprocessError.from_io_error e c = .CommandNotFound c) ∧
    (e.kind = .permissionDenied →
      SubprocessError.from_io_error e c = .PermissionDenied c ∧
      Errs.SubprocessError.from_io_error e c = .PermissionDenied c) ∧
    (∀ n, e.kind = .other n →
      SubprocessError.from_io_error e c = .ExecutionFailed (c ++ ": " ++ e.msg) ∧
      Errs.SubprocessError.from_io_error e c = .IoError (c ++ ": " ++ e.msg) ∧
      strContains c (c ++ ": " ++ e.msg) ∧
      strContains e.msg (c ++ ": " ++ e.msg)) := by
  obtain ⟨k, m⟩ := e
  refine ⟨fun h => ?_, fun h => ?_, fun n h => ?_⟩
  · cases h; exact ⟨rfl, rfl⟩
  · cases h; exact ⟨rfl, rfl⟩
  · cases h
    refine ⟨rfl, rfl, ⟨[], (": ").data ++ m.data, ?_⟩, ⟨c.data ++ (": ").data, [], ?_⟩⟩
    · simp [String.data_append]
    · simp [String.data_append]

/-- Closed application of `claim_C5_io_error_classification` at a concrete
not-found OS error. -/
theorem claim_C5_witness :
    (⟨IoErrorKind.notFound, "nf"⟩ : IoError).kind = .notFound ∧
    SubprocessError.from_io_error ⟨.notFound, "nf"⟩ "test_command" =
      .CommandNotFound "test_command" :=
  ⟨rfl, ((claim_C5_io_error_classification ⟨.notFound, "nf"⟩ "test_command").1 rfl).1⟩

/-- Shape of a successful `run_command` result: it comes from an `ok` OS
outcome, with fields assembled exactly as in the source. -/
theorem run_command_ok_elim {cmd : List String} {opts : RunOptions} {os : Os}
    {cp : CompletedProcess} (h : run_command cmd opts os = .ok cp) :
    ∃ out, os (cmd.headD "") cmd.tail opts.capture_output = .ok out ∧
      cp = ⟨out.statusCode.getD (-1),
        if opts.capture_output then some (bytes_to_string out.stdout) else none,
        if opts.capture_output then some (bytes_to_string out.stderr) else none⟩ := by
  simp only [run_command] at h
  split at h
  · exact absurd h (by simp)
  · split at h
    · rename_i out heq
      exact ⟨out, heq, by injection h with h; exact h.symm⟩
    · exact absurd h (by simp)

/-- Shape of a failing `run_command` result: either the command was empty, or
the OS spawn failed and the error is its classification. -/
theorem run_command_error_elim {cmd : List String} {opts : RunOptions} {os : Os}
    {e : SubprocessError} (h : run_command cmd opts os = .error e) :
    (cmd.isEmpty = true ∧ e = .InvalidArguments "Command cannot be empty") ∨
    ∃ io, os (cmd.headD "") cmd.tail opts.capture_output = .error io ∧
      e = SubprocessError.from_io_error io (cmd.headD "") := by
  simp only [run_command] at h
  split at h
  · exact .inl ⟨by assumption, by injection h with h; exact h.symm⟩
  · split at h
    · exact absurd h (by simp)
    · rename_i io heq
      exact .inr ⟨io, heq, by injection h with h; exact h.symm⟩

/-- Shape of a successful `run_shell_command` result. -/
theorem run_shell_command_ok_elim {windows : Bool} {s : String} {opts : RunOptions}
    {os : Os} {cp : CompletedProcess} (h : run_shell_command windows s opts os = .ok cp) :
    ∃ out, os (if windows then "cmd" else "sh") [if windows then "/C" else "-c", s]
        opts.capture_output = .ok out ∧
      cp = ⟨out.statusCode.getD (-1),
        if opts.capture_output then some (bytes_to_string out.stdout) else none,
        if opts.capture_output then some (bytes_to_string out.stderr) else none⟩ := by
  simp only [run_shell_command] at h
  split at h
  · exact absurd h (by simp)
  · split at h
    · rename_i out heq
      exact ⟨out, heq, by injection h with h; exact h.symm⟩
    · exact absurd h (by simp)

/-- Shape of a failing `run_shell_command` result: either the command trims to
empty, or the OS spawn failed and the error is its classification, with the
shell program as the attached command name. -/
theorem run_shell_command_error_elim {windows : Bool} {s : String} {opts : RunOptions}
    {os : Os} {e : SubprocessError} (h : run_shell_command windows s opts os = .error e) :
    ((rustTrim s).isEmpty = true ∧ e = .InvalidArguments "Shell command cannot be empty") ∨
    ∃ io, os (if windows then "cmd" else "sh") [if windows then "/C" else "-c", s]
        opts.capture_output = .error io ∧
      e = SubprocessError.from_io_error io (if windows then "cmd" else "sh") := by
  simp only [run_shell_command] at h
  split at h
  · exact .inl ⟨by assumption, by injection h with h; exact h.symm⟩
  · split at h
    · exact absurd h (by simp)
    · rename_i io heq
      exact .inr ⟨io, heq, by injection h with h; exact h.symm⟩

/-- C2: whenever either engine entry point returns `Ok`, the `stdout` and
`stderr` fields are both `none` when `capture_output` is false and both `some`
when `capture_output` is true, regardless of the child's exit status. -/
theorem claim_C2_capture_fields (windows : Bool) (cmd : List String) (s : String)
    (opts : RunOptions) (os : Os) (cp : CompletedProcess) :
    (run_command cmd opts os = .ok cp →
      (opts.capture_output = false → cp.stdout = none ∧ cp.stderr = none) ∧
      (opts.capture_output = true →
        (∃ x, cp.stdout = some x) ∧ ∃ y, cp.stderr = some y)) ∧
    (run_shell_command windows s opts os = .ok cp →
      (opts.capture_output = false → cp.stdout = none ∧ cp.stderr = none) ∧
      (opts.capture_output = true →
        (∃ x, cp.stdout = some x) ∧ ∃ y, cp.stderr = some y)) := by
  constructor
  · intro h
    obtain ⟨out, -, rfl⟩ := run_command_ok_elim h
    exact ⟨fun hcap => by simp [hcap], fun hcap => by simp [hcap]⟩
  · intro h
    obtain ⟨out, -, rfl⟩ := run_shell_command_ok_elim h
    exact ⟨fun hcap => by simp [hcap], fun hcap => by simp [hcap]⟩

/-- Closed application of `claim_C2_capture_fields` with capture enabled at a
concrete OS oracle. -/
theorem claim_C2_witness :
    run_command ["echo"] ⟨false, true⟩ (fun _ _ _ => .ok ⟨some 0, [], []⟩) =
      .ok ⟨0, some "", some ""⟩ ∧
    ((∃ x, (⟨(0 : Int), some "", some ""⟩ : CompletedProcess).stdout = some x) ∧
      ∃ y, (⟨(0 : Int), some "", some ""⟩ : CompletedProcess).stderr = some y) :=
  ⟨rfl, ((claim_C2_capture_fields false ["echo"] "x" ⟨false, true⟩
      (fun _ _ _ => .ok ⟨some 0, [], []⟩) ⟨0, some "", some ""⟩).1 rfl).2 rfl⟩

/-- C1: when the OS call succeeds, both engine entry points return `Ok` with a
`returncode` equal to the OS-reported status code, or `-1` when the OS reports
none (signal termination); and given the non-emptiness precondition, an `Err`
arises exactly from a spawn failure — a nonzero exit status is never turned
into a `SubprocessError`. -/
theorem claim_C1_exit_status (windows : Bool) (cmd : List String) (s : String)
    (opts : RunOptions) (os : Os) :
    (∀ out, cmd ≠ [] → os (cmd.headD "") cmd.tail opts.capture_output = .ok out →
      run_command cmd opts os = .ok
        ⟨out.statusCode.getD (-1),
          if opts.capture_output then some (bytes_to_string out.stdout) else none,
          if opts.capture_output then some (bytes_to_string out.stderr) else none⟩) ∧
    (∀ out, (rustTrim s).isEmpty = false →
      os (if windows then "cmd" else "sh") [if windows then "/C" else "-c", s]
          opts.capture_output = .ok out →
      run_shell_command windows s opts os = .ok
        ⟨out.statusCode.getD (-1),
          if opts.capture_output then some (bytes_to_string out.stdout) else none,
          if opts.capture_output then some (bytes_to_string out.stderr) else none⟩) ∧
    (∀ e, cmd ≠ [] → run_command cmd opts os = .error e →
      ∃ io, os (cmd.headD "") cmd.tail opts.capture_output = .error io ∧
        e = SubprocessError.from_io_error io (cmd.headD "")) ∧
    (∀ e, (rustTrim s).isEmpty = false → run_shell_command windows s opts os = .error e →
      ∃ io, os (if windows then "cmd" else "sh") [if windows then "/C" else "-c", s]
          opts.capture_output = .error io ∧
        e = SubprocessError.from_io_error io (if windows then "cmd" else "sh")) := by
  refine ⟨fun out hne hos => ?_, fun out hts hos => ?_, fun e hne herr => ?_,
    fun e hts herr => ?_⟩
  · have hc : cmd.isEmpty = false := by
      cases cmd
      · exact absurd rfl hne
      · rfl
    have hos' : os (cmd.head?.getD "") cmd.tail opts.capture_output = .ok out := by
      rw [← List.headD_eq_head?]; exact hos
    simp only [run_command]
    rw [hc]
    simp [hos', List.headD_eq_head?]
  · simp only [run_shell_command]
    rw [hts]
    simp [hos]
  · rcases run_command_error_elim herr with ⟨hemp, -⟩ | ⟨io, hos, he⟩
    · cases cmd
      · exact absurd rfl hne
      · exact absurd hemp (by simp)
    · exact ⟨io, hos, he⟩
  · rcases run_shell_command_error_elim herr with ⟨hemp, -⟩ | ⟨io, hos, he⟩
    · rw [hts] at hemp
      exact absurd hemp (by simp)
    · exact ⟨io, hos, he⟩

/-- Closed application of `claim_C1_exit_status` at a signal-terminated child
(no OS status code), which reports `-1`. -/
theorem claim_C1_witness :
    (["sleep"] : List String) ≠ [] ∧
    run_command ["sleep"] ⟨false, false⟩ (fun _ _ _ => .ok ⟨none, [], []⟩) =
      .ok ⟨-1, none, none⟩ :=
  ⟨by simp, (claim_C1_exit_status false ["sleep"] "x" ⟨false, false⟩
      (fun _ _ _ => .ok ⟨none, [], []⟩)).1 ⟨none, [], []⟩ (by simp) rfl⟩

/-- C10: the builtin validates arity before evaluating any argument: with zero
or more than three arguments it returns the arity hard failure, and the result
is the same for every evaluator and OS oracle — so no argument is evaluated,
no propagate outcome is forwarded, and no subprocess executes. -/
theorem claim_C10_arity_before_eval (windows : Bool) (args : List Expression)
    (evalFn evalFn' : EvalFn) (os os' : Os)
    (h : args = [] ∨ 3 < args.length) :
    subprocess_run_builtin windows args evalFn os =
      .error "subprocess.run() takes 1 to 3 arguments" ∧
    subprocess_run_builtin windows args evalFn os =
      subprocess_run_builtin windows args evalFn' os' := by
  have hc : (args.isEmpty || decide (args.length > 3)) = true := by
    rcases h with rfl | h
    · rfl
    · simp [h]
  rw [show subprocess_run_builtin windows args evalFn os =
      .error "subprocess.run() takes 1 to 3 arguments" by
    simp [subprocess_run_builtin, hc]]
  exact ⟨rfl, by simp [subprocess_run_builtin, hc]⟩

/-- Closed application of `claim_C10_arity_before_eval` at the empty argument
list. -/
theorem claim_C10_witness :
    (([] : List Expression) = [] ∨ 3 < ([] : List Expression).length) ∧
    subprocess_run_builtin false [] (fun e => .ok (.Value e))
        (fun _ _ _ => .ok ⟨some 0, [], []⟩) =
      .error "subprocess.run() takes 1 to 3 arguments" :=
  ⟨.inl rfl, (claim_C10_arity_before_eval false [] (fun e => .ok (.Value e))
      (fun e => .ok (.Value e)) (fun _ _ _ => .ok ⟨some 0, [], []⟩)
      (fun _ _ _ => .ok ⟨some 0, [], []⟩) (.inl rfl)).1⟩

/-- An error from the string-extraction loop is always its single message. -/
theorem extract_strings_error {l : List Expression} {m : String}
    (h : extract_strings l = .error m) :
    m = "subprocess.run() command list must contain only strings" := by
  induction l with
  | nil => simp [extract_strings] at h
  | cons a t ih =>
    cases a with
    | CString s =>
      simp only [extract_strings] at h
      cases hext : extract_strings t with
      | ok v => rw [hext] at h; simp [Except.map] at h
      | error m' =>
        rw [hext] at h
        simp only [Except.map] at h
        injection h with h
        subst h
        exact ih hext
    | CInt n => simp only [extract_strings] at h; injection h with h; exact h.symm
    | CTrue => simp only [extract_strings] at h; injection h with h; exact h.symm
    | CFalse => simp only [extract_strings] at h; injection h with h; exact h.symm
    | ListValue l' => simp only [extract_strings] at h; injection h with h; exact h.symm
    | CompletedProcess r o1 o2 =>
      simp only [extract_strings] at h; injection h with h; exact h.symm
    | CErr inner => simp only [extract_strings] at h; injection h with h; exact h.symm

/-- Extraction succeeds on a list of string literals and returns them. -/
theorem extract_strings_map (l : List String) :
    extract_strings (l.map .CString) = .ok l := by
  induction l with
  | nil => rfl
  | cons s t ih => simp [extract_strings, ih, Except.map]

/-- An error from command parsing is one of its three messages. -/
theorem parse_command_error {v : Expression} {m : String}
    (h : parse_command v = .error m) :
    m = "subprocess.run() first argument must be a list of strings or a string" ∨
    m = "subprocess.run() command list must contain only strings" ∨
    m = "subprocess.run() command list cannot be empty" := by
  cases v with
  | ListValue l =>
    simp only [parse_command] at h
    cases hext : extract_strings l with
    | error m' =>
      rw [hext] at h
      injection h with h
      exact .inr (.inl (h ▸ extract_strings_error hext))
    | ok v' =>
      rw [hext] at h
      by_cases he : v'.isEmpty <;> simp [he] at h
      exact .inr (.inr h.symm)
  | CString s => simp [parse_command] at h
  | CInt n => simp only [parse_command] at h; injection h with h; exact .inl h.symm
  | CTrue => simp only [parse_command] at h; injection h with h; exact .inl h.symm
  | CFalse => simp only [parse_command] at h; injection h with h; exact .inl h.symm
  | CompletedProcess r o1 o2 =>
    simp only [parse_command] at h; injection h with h; exact .inl h.symm
  | CErr inner => simp only [parse_command] at h; injection h with h; exact .inl h.symm

/-- An error from flag parsing is the message supplied for it. -/
theorem parse_bool_flag_error {v : Expression} {msg m : String}
    (h : parse_bool_flag v msg = .error m) : m = msg := by
  cases v <;> simp only [parse_bool_flag] at h <;> first
    | (injection h with h; exact h.symm)
    | exact Except.noConfusion h

/-- Flag parsing succeeds on an encoded boolean and returns it. -/
theorem parse_bool_flag_boolExpr (b : Bool) (msg : String) :
    parse_bool_flag (boolExpr b) msg = .ok b := by
  cases b <;> rfl

/-- An error from argument parsing is one of the builtin's contract-violation
messages. -/
theorem parse_run_args_error {vals : List Expression} {m : String}
    (h : parse_run_args vals = .error m) :
    m = "subprocess.run() takes 1 to 3 arguments" ∨
    m = "subprocess.run() first argument must be a list of strings or a string" ∨
    m = "subprocess.run() command list must contain only strings" ∨
    m = "subprocess.run() command list cannot be empty" ∨
    m = "subprocess.run() shell argument must be a boolean" ∨
    m = "subprocess.run() capture_output argument must be a boolean" := by
  match vals with
  | [] =>
    simp only [parse_run_args] at h
    injection h with h
    exact .inl h.symm
  | v0 :: rest =>
    cases hpc : parse_command v0 with
    | error m' =>
      simp only [parse_run_args, hpc] at h
      injection h with h
      subst h
      rcases parse_command_error hpc with h | h | h
      · exact .inr (.inl h)
      · exact .inr (.inr (.inl h))
      · exact .inr (.inr (.inr (.inl h)))
    | ok cmd =>
      match rest with
      | [] =>
        simp only [parse_run_args, hpc] at h
        exact Except.noConfusion h
      | [v1] =>
        cases hb : parse_bool_flag v1 "subprocess.run() shell argument must be a boolean" with
        | error m' =>
          simp only [parse_run_args, hpc, hb] at h
          injection h with h
          subst h
          exact .inr (.inr (.inr (.inr (.inl (parse_bool_flag_error hb)))))
        | ok sh =>
          simp only [parse_run_args, hpc, hb] at h
          exact Except.noConfusion h
      | v1 :: v2 :: rest2 =>
        cases hb : parse_bool_flag v1 "subprocess.run() shell argument must be a boolean" with
        | error m' =>
          simp only [parse_run_args, hpc, hb] at h
          injection h with h
          subst h
          exact .inr (.inr (.inr (.inr (.inl (parse_bool_flag_error hb)))))
        | ok sh =>
          cases hb2 : parse_bool_flag v2
              "subprocess.run() capture_output argument must be a boolean" with
          | error m' =>
            simp only [parse_run_args, hpc, hb, hb2] at h
            injection h with h
            subst h
            exact .inr (.inr (.inr (.inr (.inr (parse_bool_flag_error hb2)))))
          | ok cap =>
            simp only [parse_run_args, hpc, hb, hb2] at h
            exact Except.noConfusion h

/-- C3: the bridge keeps the two error channels distinct — a failed arity
check or a failed parse (the contract violations, whose messages are
enumerated) surfaces as the builtin's hard `Err`, while every
`SubprocessError` coming out of the execution engine surfaces as an `Ok`
value wrapping the error's display string in `CErr`. -/
theorem claim_C3_error_channels (windows : Bool) (evalFn : EvalFn) (os : Os) :
    (∀ args : List Expression, args = [] ∨ 3 < args.length →
      subprocess_run_builtin windows args evalFn os =
        .error "subprocess.run() takes 1 to 3 arguments") ∧
    (∀ args vals m, args ≠ [] → args.length ≤ 3 →
      eval_args evalFn args = .ok (.inl vals) →
      parse_run_args vals = .error m →
      subprocess_run_builtin windows args evalFn os = .error m) ∧
    (∀ vals m, parse_run_args vals = .error m →
      m = "subprocess.run() takes 1 to 3 arguments" ∨
      m = "subprocess.run() first argument must be a list of strings or a string" ∨
      m = "subprocess.run() command list must contain only strings" ∨
      m = "subprocess.run() command list cannot be empty" ∨
      m = "subprocess.run() shell argument must be a boolean" ∨
      m = "subprocess.run() capture_output argument must be a boolean") ∧
    (∀ args vals command options e, args ≠ [] → args.length ≤ 3 →
      eval_args evalFn args = .ok (.inl vals) →
      parse_run_args vals = .ok (command, options) →
      dispatch_execute windows command options os = .error e →
      subprocess_run_builtin windows args evalFn os =
        .ok (.Value (.CErr (.CString e.toDisplayString)))) := by
  refine ⟨fun args h => ?_, fun args vals m h1 h2 heval hparse => ?_,
    fun vals m h => parse_run_args_error h, fun args vals command options e h1 h2 heval
      hparse hdisp => ?_⟩
  · have hc : (args.isEmpty || decide (args.length > 3)) = true := by
      rcases h with rfl | h
      · rfl
      · simp [h]
    simp [subprocess_run_builtin, hc]
  · have hc : (args.isEmpty || decide (args.length > 3)) = false := by
      cases args with
      | nil => exact absurd rfl h1
      | cons x t =>
        simp only [List.length_cons] at h2
        simp only [List.isEmpty_cons, Bool.false_or, decide_eq_false_iff_not,
          List.length_cons]
        omega
    simp only [subprocess_run_builtin]
    rw [hc]
    simp [heval, hparse]
  · have hc : (args.isEmpty || decide (args.length > 3)) = false := by
      cases args with
      | nil => exact absurd rfl h1
      | cons x t =>
        simp only [List.length_cons] at h2
        simp only [List.isEmpty_cons, Bool.false_or, decide_eq_false_iff_not,
          List.length_cons]
        omega
    simp only [subprocess_run_builtin]
    rw [hc]
    simp [heval, hparse, hdisp, wrapResult]

/-- Closed application of `claim_C3_error_channels`: a command-not-found spawn
failure surfaces as an `Ok`-wrapped `CErr` value, never as the hard `Err`
channel. -/
theorem claim_C3_witness :
    ([Expression.CString "nope"] ≠ ([] : List Expression)) ∧
    eval_args (fun e => .ok (.Value e)) [Expression.CString "nope"] =
      .ok (.inl [Expression.CString "nope"]) ∧
    parse_run_args [Expression.CString "nope"] = .ok (["nope"], RunOptions.default) ∧
    dispatch_execute false ["nope"] RunOptions.default
        (fun _ _ _ => .error ⟨.notFound, "No such file or directory (os error 2)"⟩) =
      .error (.CommandNotFound "nope") ∧
    subprocess_run_builtin false [Expression.CString "nope"] (fun e => .ok (.Value e))
        (fun _ _ _ => .error ⟨.notFound, "No such file or directory (os error 2)"⟩) =
      .ok (.Value (.CErr (.CString "Command not found: nope"))) :=
  ⟨by simp, rfl, rfl, rfl,
    (claim_C3_error_channels false (fun e => .ok (.Value e))
        (fun _ _ _ => .error ⟨.notFound, "No such file or directory (os error 2)"⟩)).2.2.2
      [Expression.CString "nope"] [Expression.CString "nope"] ["nope"] RunOptions.default
      (.CommandNotFound "nope") (by simp) (by simp) rfl rfl rfl⟩

/-- With the shell flag set, the dispatch always reaches `run_shell_command`
on the command's first element, whether the command has one element or more. -/
theorem dispatch_execute_shell_true (windows : Bool) (command : List String)
    (cap : Bool) (os : Os) :
    dispatch_execute windows command ⟨true, cap⟩ os =
      run_shell_command windows (command.headD "") ⟨true, cap⟩ os := by
  by_cases hl : command.length == 1 <;> simp [dispatch_execute, hl]

/-- Without the shell flag, the dispatch always reaches `run_command` on the
whole command vector. -/
theorem dispatch_execute_shell_false (windows : Bool) (command : List String)
    (cap : Bool) (os : Os) :
    dispatch_execute windows command ⟨false, cap⟩ os =
      run_command command ⟨false, cap⟩ os := by
  simp [dispatch_execute]

/-- C7: when the shell flag evaluates to true and the command argument
evaluates to a non-empty list of strings, the bridge shell-executes only the
list's first element, discarding the rest — for the two-argument and
three-argument call forms alike. -/
theorem claim_C7_shell_list_first_only (windows : Bool) (evalFn : EvalFn) (os : Os) :
    (∀ a b l, l ≠ [] →
      evalFn a = .ok (.Value (.ListValue (l.map .CString))) →
      evalFn b = .ok (.Value .CTrue) →
      subprocess_run_builtin windows [a, b] evalFn os =
        wrapResult (run_shell_command windows (l.headD "") ⟨true, false⟩ os)) ∧
    (∀ a b c l cap, l ≠ [] →
      evalFn a = .ok (.Value (.ListValue (l.map .CString))) →
      evalFn b = .ok (.Value .CTrue) →
      evalFn c = .ok (.Value (boolExpr cap)) →
      subprocess_run_builtin windows [a, b, c] evalFn os =
        wrapResult (run_shell_command windows (l.headD "") ⟨true, cap⟩ os)) := by
  constructor
  · intro a b l hne ha hb
    have hle : l.isEmpty = false := by
      cases l
      · exact absurd rfl hne
      · rfl
    simp [subprocess_run_builtin, eval_args, ha, hb, parse_run_args, parse_command,
      extract_strings_map, hle, parse_bool_flag, dispatch_execute_shell_true]
  · intro a b c l cap hne ha hb hcEv
    have hle : l.isEmpty = false := by
      cases l
      · exact absurd rfl hne
      · rfl
    cases cap <;>
      simp [subprocess_run_builtin, eval_args, ha, hb, hcEv, parse_run_args, parse_command,
        extract_strings_map, hle, parse_bool_flag, boolExpr, dispatch_execute_shell_true]

/-- Closed application of `claim_C7_shell_list_first_only`: with
`shell=true` and the list `["echo", "hi"]`, only `"echo"` is shell-executed. -/
theorem claim_C7_witness :
    (["echo", "hi"] : List String) ≠ [] ∧
    subprocess_run_builtin false
        [.ListValue [.CString "echo", .CString "hi"], .CTrue]
        (fun e => .ok (.Value e)) (fun _ _ _ => .ok ⟨some 0, [], []⟩) =
      wrapResult (run_shell_command false "echo" ⟨true, false⟩
        (fun _ _ _ => .ok ⟨some 0, [], []⟩)) :=
  ⟨by simp, (claim_C7_shell_list_first_only false (fun e => .ok (.Value e))
      (fun _ _ _ => .ok ⟨some 0, [], []⟩)).1
    (.ListValue [.CString "echo", .CString "hi"]) .CTrue ["echo", "hi"]
    (by simp) rfl rfl⟩

/-- C6 counterexample: a bridge call whose command argument evaluates to the
single string `"echo hi"` with the shell flag left at its default is *not*
executed via `run_shell` — under an OS oracle that knows the shell but not a
program literally named `"echo hi"`, the bridge's result (a command-not-found
failure value from direct execution) differs from the shell execution's
result. -/
theorem claim_C6_counterexample :
    subprocess_run_builtin false [.CString "echo hi"] (fun e => .ok (.Value e))
        (fun prog _ _ =>
          if prog = "sh" then .ok ⟨some 0, [], []⟩
          else .error ⟨.notFound, "No such file or directory (os error 2)"⟩) ≠
      wrapResult (run_shell_command false "echo hi" ⟨false, false⟩
        (fun prog _ _ =>
          if prog = "sh" then .ok ⟨some 0, [], []⟩
          else .error ⟨.notFound, "No such file or directory (os error 2)"⟩)) := by
  intro h
  have h1 : subprocess_run_builtin false [.CString "echo hi"] (fun e => .ok (.Value e))
      (fun prog _ _ =>
        if prog = "sh" then .ok ⟨some 0, [], []⟩
        else .error ⟨.notFound, "No such file or directory (os error 2)"⟩) =
      .ok (.Value (.CErr (.CString "Command not found: echo hi"))) := rfl
  have h2 : wrapResult (run_shell_command false "echo hi" ⟨false, false⟩
      (fun prog _ _ =>
        if prog = "sh" then .ok ⟨some 0, [], []⟩
        else .error ⟨.notFound, "No such file or directory (os error 2)"⟩)) =
      .ok (.Value (.CompletedProcess 0 none none)) := rfl
  rw [h1, h2] at h
  simp at h

/-- C6 (amended): a command argument that evaluates to a single string is
executed via `run_shell` only when the shell flag evaluated to true; when the
flag is false or omitted, the string becomes a one-element argv executed via
direct `run`.  A command that evaluates to a list of strings with the shell
flag false or omitted runs via direct `run`, each list element one argv entry
— stated for every call arity: one argument, two arguments, and three
arguments. -/
theorem claim_C6_amended_dispatch (windows : Bool) (evalFn : EvalFn) (os : Os) :
    (∀ a s, evalFn a = .ok (.Value (.CString s)) →
      subprocess_run_builtin windows [a] evalFn os =
        wrapResult (run_command [s] ⟨false, false⟩ os)) ∧
    (∀ a b s sh, evalFn a = .ok (.Value (.CString s)) →
      evalFn b = .ok (.Value (boolExpr sh)) →
      subprocess_run_builtin windows [a, b] evalFn os =
        wrapResult (if sh then run_shell_command windows s ⟨sh, false⟩ os
          else run_command [s] ⟨sh, false⟩ os)) ∧
    (∀ a b c s sh cap, evalFn a = .ok (.Value (.CString s)) →
      evalFn b = .ok (.Value (boolExpr sh)) →
      evalFn c = .ok (.Value (boolExpr cap)) →
      subprocess_run_builtin windows [a, b, c] evalFn os =
        wrapResult (if sh then run_shell_command windows s ⟨sh, cap⟩ os
          else run_command [s] ⟨sh, cap⟩ os)) ∧
    (∀ a l, l ≠ [] →
      evalFn a = .ok (.Value (.ListValue (l.map .CString))) →
      subprocess_run_builtin windows [a] evalFn os =
        wrapResult (run_command l ⟨false, false⟩ os)) ∧
    (∀ a b l, l ≠ [] →
      evalFn a = .ok (.Value (.ListValue (l.map .CString))) →
      evalFn b = .ok (.Value .CFalse) →
      subprocess_run_builtin windows [a, b] evalFn os =
        wrapResult (run_command l ⟨false, false⟩ os)) ∧
    (∀ a b c l cap, l ≠ [] →
      evalFn a = .ok (.Value (.ListValue (l.map .CString))) →
      evalFn b = .ok (.Value .CFalse) →
      evalFn c = .ok (.Value (boolExpr cap)) →
      subprocess_run_builtin windows [a, b, c] evalFn os =
        wrapResult (run_command l ⟨false, cap⟩ os)) := by
  refine ⟨fun a s ha => ?_, fun a b s sh ha hb => ?_, fun a b c s sh cap ha hb hcEv => ?_,
    fun a l hne ha => ?_, fun a b l hne ha hb => ?_, fun a b c l cap hne ha hb hcEv => ?_⟩
  · simp [subprocess_run_builtin, eval_args, ha, parse_run_args, parse_command,
      RunOptions.default, dispatch_execute]
  · cases sh <;>
      simp [subprocess_run_builtin, eval_args, ha, hb, parse_run_args, parse_command,
        parse_bool_flag, boolExpr, dispatch_execute]
  · cases sh <;> cases cap <;>
      simp [subprocess_run_builtin, eval_args, ha, hb, hcEv, parse_run_args, parse_command,
        parse_bool_flag, boolExpr, dispatch_execute]
  · have hle : l.isEmpty = false := by
      cases l
      · exact absurd rfl hne
      · rfl
    simp [subprocess_run_builtin, eval_args, ha, parse_run_args, parse_command,
      extract_strings_map, hle, RunOptions.default, dispatch_execute_shell_false]
  · have hle : l.isEmpty = false := by
      cases l
      · exact absurd rfl hne
      · rfl
    simp [subprocess_run_builtin, eval_args, ha, hb, parse_run_args, parse_command,
      extract_strings_map, hle, parse_bool_flag, dispatch_execute_shell_false]
  · have hle : l.isEmpty = false := by
      cases l
      · exact absurd rfl hne
      · rfl
    cases cap <;>
      simp [subprocess_run_builtin, eval_args, ha, hb, hcEv, parse_run_args, parse_command,
        extract_strings_map, hle, parse_bool_flag, boolExpr, dispatch_execute_shell_false]

/-- Closed application of `claim_C6_amended_dispatch`: a lone string command
with no flags runs via direct `run` as a one-element argv. -/
theorem claim_C6_witness :
    (fun e => (Except.ok (ExpressionResult.Value e) : Except String ExpressionResult))
        (Expression.CString "echo hi") =
      .ok (.Value (.CString "echo hi")) ∧
    subprocess_run_builtin false [.CString "echo hi"] (fun e => .ok (.Value e))
        (fun _ _ _ => .ok ⟨some 0, [], []⟩) =
      wrapResult (run_command ["echo hi"] ⟨false, false⟩
        (fun _ _ _ => .ok ⟨some 0, [], []⟩)) :=
  ⟨rfl, (claim_C6_amended_dispatch false (fun e => .ok (.Value e))
      (fun _ _ _ => .ok ⟨some 0, [], []⟩)).1 (.CString "echo hi") "echo hi" rfl⟩

/-- Two display strings of the interpreter copy's struct-shaped
`ExecutionFailed` variant cannot share one category prefix: a common `c` with
`c ++ ": "` prefixing both is impossible, because the strings first differ at
index 10 while their first `:` lies beyond it. -/
theorem no_common_category_prefix (c d1 d2 : String)
    (h1 : "Command \u0027a\u0027 failed with exit code None. Stdout: None, Stderr: None" =
      c ++ ": " ++ d1)
    (h2 : "Command \u0027ab\u0027 failed with exit code None. Stdout: None, Stderr: None" =
      c ++ ": " ++ d2) : False := by
  have l1 : ("Command \u0027a\u0027 failed with exit code None. Stdout: None, Stderr: None"
      : String).data = c.data ++ ':' :: ' ' :: d1.data := by
    rw [h1]
    simp [String.data_append]
  have l2 : ("Command \u0027ab\u0027 failed with exit code None. Stdout: None, Stderr: None"
      : String).data = c.data ++ ':' :: ' ' :: d2.data := by
    rw [h2]
    simp [String.data_append]
  have A1 : ("Command \u0027a\u0027 failed with exit code None. Stdout: None, Stderr: None"
      : String).data[c.data.length]? = some ':' := by
    rw [l1, List.getElem?_append_right (Nat.le_refl _)]
    simp
  have B1 : ("Command \u0027a\u0027 failed with exit code None. Stdout: None, Stderr: None"
      : String).data.take c.data.length = c.data := by
    rw [l1]
    exact List.take_left c.data _
  have B2 : ("Command \u0027ab\u0027 failed with exit code None. Stdout: None, Stderr: None"
      : String).data.take c.data.length = c.data := by
    rw [l2]
    exact List.take_left c.data _
  by_cases hn : c.data.length ≤ 10
  · have hall : ∀ m : Fin 11,
        ("Command \u0027a\u0027 failed with exit code None. Stdout: None, Stderr: None"
          : String).data[m.val]? ≠ some ':' := by decide
    exact hall ⟨c.data.length, by omega⟩ A1
  · have t1 : (("Command \u0027a\u0027 failed with exit code None. Stdout: None, Stderr: None"
        : String).data.take c.data.length)[10]? =
        ("Command \u0027a\u0027 failed with exit code None. Stdout: None, Stderr: None"
          : String).data[10]? :=
      List.getElem?_take_of_lt (by omega)
    have t2 : (("Command \u0027ab\u0027 failed with exit code None. Stdout: None, Stderr: None"
        : String).data.take c.data.length)[10]? =
        ("Command \u0027ab\u0027 failed with exit code None. Stdout: None, Stderr: None"
          : String).data[10]? :=
      List.getElem?_take_of_lt (by omega)
    have h10 : ("Command \u0027a\u0027 failed with exit code None. Stdout: None, Stderr: None"
        : String).data[10]? =
        ("Command \u0027ab\u0027 failed with exit code None. Stdout: None, Stderr: None"
          : String).data[10]? := by
      rw [← t1, ← t2, B1, B2]
    have hne : ("Command \u0027a\u0027 failed with exit code None. Stdout: None, Stderr: None"
        : String).data[10]? ≠
        ("Command \u0027ab\u0027 failed with exit code None. Stdout: None, Stderr: None"
          : String).data[10]? := by decide
    exact hne h10

/-- C8 counterexample: the claim that every variant of both `SubprocessError`
copies displays as a variant-determined `"<Category>: <detail>"` is false —
the interpreter copy's struct-shaped `ExecutionFailed` admits no category
function, as witnessed by the values `ExecutionFailed("a", None, None, None)`
and `ExecutionFailed("ab", None, None, None)`. -/
theorem claim_C8_counterexample : ¬ ClaimC8Statement := by
  rintro ⟨-, ⟨catFn, hcat⟩, -, -⟩
  obtain ⟨d1, h1⟩ := hcat (.ExecutionFailed "a" none none none)
  obtain ⟨d2, h2⟩ := hcat (.ExecutionFailed "ab" none none none)
  simp only [Errs.SubprocessError.tag] at h1 h2
  have e1 : Errs.SubprocessError.toDisplayString (.ExecutionFailed "a" none none none) =
      "Command \u0027a\u0027 failed with exit code None. Stdout: None, Stderr: None" := rfl
  have e2 : Errs.SubprocessError.toDisplayString (.ExecutionFailed "ab" none none none) =
      "Command \u0027ab\u0027 failed with exit code None. Stdout: None, Stderr: None" := rfl
  rw [e1] at h1
  rw [e2] at h2
  exact no_common_category_prefix (catFn 1) d1 d2 h1 h2

/-- C8 (amended): every variant of the stdlib `SubprocessError` displays as
`"<Category>: <detail>"` with the category determined by the variant alone;
in the interpreter copy every variant does likewise except the struct-shaped
`ExecutionFailed`, which displays as
`"Command '<name>' failed with exit code <code>. Stdout: <stdout>, Stderr: <stderr>"`;
`CommandNotFound("foo")` displays exactly as `"Command not found: foo"` in
both copies, and both conversions are total. -/
theorem claim_C8_amended_display (e : SubprocessError) (s c : String)
    (n : Option Int) (o1 o2 : Option String) :
    e.toDisplayString = e.category ++ ": " ++ e.detail ∧
    Errs.SubprocessError.toDisplayString (.CommandNotFound s) = "Command not found: " ++ s ∧
    Errs.SubprocessError.toDisplayString (.IoError s) = "I/O Error: " ++ s ∧
    Errs.SubprocessError.toDisplayString (.InvalidArguments s) = "Invalid arguments: " ++ s ∧
    Errs.SubprocessError.toDisplayString (.PermissionDenied s) = "Permission denied: " ++ s ∧
    Errs.SubprocessError.toDisplayString (.OutputCaptureError s) =
      "Output capture error: " ++ s ∧
    Errs.SubprocessError.toDisplayString (.Other s) = "Subprocess Error: " ++ s ∧
    Errs.SubprocessError.toDisplayString (.ExecutionFailed c n o1 o2) =
      "Command \u0027" ++ c ++ "\u0027 failed with exit code " ++ rustDebugOptionInt n ++
        ". Stdout: " ++ rustDebugOptionString o1 ++ ", Stderr: " ++ rustDebugOptionString o2 ∧
    SubprocessError.toDisplayString (.CommandNotFound "foo") = "Command not found: foo" :=
  ⟨by cases e <;> rfl, rfl, rfl, rfl, rfl, rfl, rfl, rfl, rfl⟩
